import Mathlib

/-
  Spec2Proof.lean — a verification development for the sidekick-epics Arduino
  firmware sketches: PulseGeneratorSCPI.ino, LEDsSCPI.ino, and the shutter and
  photodiode sketches bundled alongside them.

  Modelling conventions (shallow embedding):
  * The microsecond clock is modelled as Nat.  The firmware compares deadlines
    through arduino-timer's wrap-safe unsigned subtraction (now - start >=
    expires on 32-bit unsigned longs); for runs in which the counter does not
    wrap this is equivalent to the absolute-deadline test (start + expires <=
    now) used here, and timer1.at(t, h) stores start/expires with
    start + expires = t, so tasks carry their absolute deadline directly.
  * arduino-timer's tick() scans the task slots in order and fires every task
    whose deadline has elapsed; fired one-shot tasks are removed, and tasks
    added by a handler while ticking land in a free slot with a deadline
    strictly in the future (TTLStop is scheduled pulseTime = 3000 us ahead),
    so they never fire within the tick that created them.  The queue is
    modelled as a list in slot order; handler-spawned tasks are appended.
  * C doubles are modelled as exact rationals (Rat); every double expression
    the claims mention is a product/quotient that is exact in both models.
  * AVR (Arduino Uno) integer widths: int is 16 bits, long and unsigned long
    are 32 bits.  Arduino String::toInt is atol; the long -> int assignment in
    setDelay truncates modulo 2^16 (two's complement).
-/

namespace SidekickEPICS

namespace PulseGen

/-- NCHAN in PulseGeneratorSCPI.ino: eight delayed TTL output channels. -/
def NCHAN : Nat := 8

/-- TRIGOUT pin (Arduino pin 3). -/
def TRIGOUT : Nat := 3

/-- chanPins array as filled in setup(): channels 0-7 on Arduino pins 4-11. -/
def chanPins : List Nat := [4, 5, 6, 7, 8, 9, 10, 11]

/-- pulseTime: fixed TTL pulse width in microseconds. -/
def pulseTimeInit : Nat := 3000

/-- The callback of a timer1 task: TTLStart pin (drive pin HIGH, schedule the
matching TTLStop) or TTLStop pin (drive pin LOW). -/
inductive Act where
  | ttlStart (pin : Nat)
  | ttlStop (pin : Nat)
  deriving DecidableEq, Repr

/-- One timer1 task slot: an absolute deadline plus the callback. -/
structure Task where
  deadline : Nat
  act : Act
  deriving DecidableEq, Repr

/-- The pulse-generator state touched by the timing core: the timer1 task
queue (in slot order), the trigger epoch t0, the per-channel delay table
(the nonnegative stored values of the delays array, in microseconds) and the
fixed pulse width. -/
structure St where
  queue : List Task
  t0 : Nat
  delays : List Nat
  pulseTime : Nat
  deriving DecidableEq, Repr

/-- trigStart (PulseGeneratorSCPI.ino lines 72-86): if timer1.size() < 1,
set t0 = micros() + 1000, schedule TTLStart on TRIGOUT at t0 and TTLStart on
each channel pin at t0 + delays[i]; otherwise do nothing (the trigger is
dropped).  Returns the new state. -/
def trigStart (now : Nat) (s : St) : St :=
  if s.queue.length < 1 then
    let t0 := now + 1000
    let riseTasks := (List.range NCHAN).map
      (fun i => Task.mk (t0 + s.delays.getD i 0) (Act.ttlStart (chanPins.getD i 0)))
    { s with queue := s.queue ++ [Task.mk t0 (Act.ttlStart TRIGOUT)] ++ riseTasks,
             t0 := t0 }
  else s

/-- A task is due when its deadline has elapsed. -/
def due (now : Nat) (tk : Task) : Bool := decide (tk.deadline ≤ now)

/-- Tasks a firing handler schedules: TTLStart pin runs timer1.in(pulseTime,
TTLStop, pin), i.e. a TTLStop task due pulseTime after the firing instant;
TTLStop schedules nothing. -/
def spawn (now pt : Nat) (tk : Task) : List Task :=
  match tk.act with
  | Act.ttlStart pin => [Task.mk (now + pt) (Act.ttlStop pin)]
  | Act.ttlStop _ => []

/-- One timer1.tick() at instant now: every due task fires, in slot order;
fired one-shot tasks are removed and the tasks their handlers scheduled are
added.  Returns the new state and the list of fired tasks in firing order. -/
def tick (now : Nat) (s : St) : St × List Task :=
  let fired := s.queue.filter (due now)
  let remaining := s.queue.filter (fun tk => ! due now tk)
  ({ s with queue := remaining ++ (fired.map (spawn now s.pulseTime)).flatten }, fired)

/-- Run the loop over a trace of tick instants, accumulating the fired log
as (instant, task) pairs in firing order. -/
def run : List Nat → St → St × List (Nat × Task)
  | [], s => (s, [])
  | t :: ts, s =>
    let p := tick t s
    let r := run ts p.1
    (r.1, p.2.map (fun tk => (t, tk)) ++ r.2)

/-- First instant of a trace at which a deadline has elapsed. -/
def firstHit (trace : List Nat) (d : Nat) : Option Nat :=
  trace.find? (fun t => decide (d ≤ t))

/-- The dense trace n, n+1, ..., n+k-1: a tick at every microsecond. -/
def denseFrom : Nat → Nat → List Nat
  | _, 0 => []
  | n, k + 1 => n :: denseFrom (n + 1) k

end PulseGen

namespace Leds

/-- NLED in LEDsSCPI.ino: six LED channels. -/
def NLED : Nat := 6

/-- The callback of a timer1 task in the LED sketch: LEDStart i (analogWrite
the stored brightness) or LEDStop i (drive the pin LOW). -/
inductive Act where
  | ledStart (i : Nat)
  | ledStop (i : Nat)
  deriving DecidableEq, Repr

/-- One LED timer task: absolute deadline plus callback. -/
structure Task where
  deadline : Nat
  act : Act
  deriving DecidableEq, Repr

/-- LED sketch state touched by the timing core: timer queue, trigger epoch,
per-LED pulse durations (microseconds) and brightnesses. -/
structure St where
  queue : List Task
  t0 : Nat
  durations : List Nat
  brights : List Int
  deriving DecidableEq, Repr

/-- myISR (LEDsSCPI.ino lines 71-83): if timer1.size() < 1, set
t0 = micros() + 1000 and, for each LED i in order, schedule LEDStart i at t0
and LEDStop i at t0 + durations[i]; otherwise drop the trigger. -/
def myISR (now : Nat) (s : St) : St :=
  if s.queue.length < 1 then
    let t0 := now + 1000
    let tasks := (List.range NLED).map
      (fun i => [Task.mk t0 (Act.ledStart i),
                 Task.mk (t0 + s.durations.getD i 0) (Act.ledStop i)])
    { s with queue := s.queue ++ tasks.flatten, t0 := t0 }
  else s

end Leds

namespace PhotoAdv

/-- areadmax in the streaming photodiode sketch: 1023 (10-bit ADC). -/
def areadmax : Nat := 1023

/-- areadmaxvolts: 5 V full scale. -/
def areadmaxvolts : Rat := 5

/-- The callback of a timer1 task in the streaming photodiode sketch. -/
inductive Act where
  | daqStart
  | daqStop
  deriving DecidableEq, Repr

/-- One timer task: absolute deadline plus callback. -/
structure Task where
  deadline : Nat
  act : Act
  deriving DecidableEq, Repr

/-- State of the streaming (DAT/TRIG) photodiode sketch: timer queue, the
running sum/count filled by loop(), the values grabbed at DAQStop, trigger
counters, the configured duration and the duration captured for the active
acquisition, the derived averages and integration result (doubles, modelled
as rationals), the debug dt value, the debug flag and the ready flag. -/
structure St where
  queue : List Task
  t0 : Nat
  sum : Nat
  ncounts : Nat
  sumDaq : Nat
  ncountsDaq : Nat
  trigcnt : Nat
  trigcntDaq : Nat
  trigcntDat : Nat
  duration1 : Nat
  durationDaq : Nat
  avgDaq : Rat
  avgVolts : Rat
  integration : Rat
  dt : Rat
  debugmode : Bool
  daqIsReady : Bool
  deriving DecidableEq, Repr

/-- myISR of the streaming photodiode sketch (lines 406-421 of the combined
source): always increment trigcnt; then, only if timer1.size() < 1 and
DAQIsReady, clear the ready flag, latch the trigger count, set
t0 = micros() + 1000, capture duration_daq = duration1 and schedule DAQStart
at t0 and DAQStop at t0 + duration_daq. -/
def myISR (now : Nat) (s : St) : St :=
  let s1 := { s with trigcnt := s.trigcnt + 1 }
  if s1.queue.length < 1 && s1.daqIsReady then
    let t0 := now + 1000
    { s1 with
        daqIsReady := false,
        trigcntDaq := s1.trigcnt,
        t0 := t0,
        durationDaq := s1.duration1,
        queue := s1.queue ++ [Task.mk t0 Act.daqStart,
                              Task.mk (t0 + s1.duration1) Act.daqStop] }
  else s1

/-- DAQStart: reset the running sum and count. -/
def DAQStart (s : St) : St :=
  { s with sum := 0, ncounts := 0 }

/-- DAQStop (lines 370-401 of the combined source): grab sum/ncounts and the
acquisition trigger count; average with a divide-by-zero guard; convert to
volts with the linear ADC transfer function; multiply by duration_daq * 1e-6
to get the integration result; when debugmode is set, additionally compute
dt = duration_daq / ncounts_daq (an unsigned-long division, which divides by
zero when ncounts_daq = 0); finally set DAQIsReady.  The returned Bool
records whether a division by zero was evaluated in this stop path (the C
expression duration_daq / ncounts_daq with ncounts_daq = 0; its value on the
hardware is undefined, so no theorem below relies on the dt field in that
case). -/
def DAQStop (s : St) : St × Bool :=
  let sumDaq := s.sum
  let ncountsDaq := s.ncounts
  let trigcntDat := s.trigcntDaq
  let avgDaq : Rat := if 0 < ncountsDaq then (sumDaq : Rat) / (ncountsDaq : Rat) else 0
  let avgVolts : Rat := avgDaq * (areadmaxvolts / (areadmax : Rat))
  let intg : Rat := avgVolts * ((s.durationDaq : Rat) * (1 / 1000000))
  let dtNew : Rat := if s.debugmode then ((s.durationDaq / ncountsDaq : Nat) : Rat) else s.dt
  ({ s with
      sumDaq := sumDaq,
      ncountsDaq := ncountsDaq,
      trigcntDat := trigcntDat,
      avgDaq := avgDaq,
      avgVolts := avgVolts,
      integration := intg,
      dt := dtNew,
      daqIsReady := true },
   s.debugmode && decide (ncountsDaq = 0))

end PhotoAdv

namespace PhotoSimple

/-- dt in the simple photodiode sketch: 200 us between ADC samples. -/
def dt : Nat := 200

/-- areadmax: 255 (8-bit scale used by this sketch). -/
def areadmax : Nat := 255

/-- areadmaxvolts: 3.3 V full scale. -/
def areadmaxvolts : Rat := 33 / 10

/-- DAQStop of the simple photodiode sketch (lines 549-554 of the combined
source): integration = (sum * dt) * (areadmaxvolts / areadmax) * 1e-6.
sum * dt is an unsigned-long product, hence reduced modulo 2^32. -/
def stopIntegration (sum : Nat) : Rat :=
  ((sum * dt % 2 ^ 32 : Nat) : Rat) * (areadmaxvolts / (areadmax : Rat)) * (1 / 1000000)

/-- The number of DAQRead samples accumulated during an acquisition of
duration d under ideal per-microsecond ticking: DAQStart fires at t0 and
installs the periodic DAQRead with period dt, so reads fire at t0 + k * dt
for k = 1, 2, ...; DAQStop at t0 + d occupies an earlier task slot than the
periodic read, so at a coincident deadline the stop computes the integration
first.  The reads counted in the integration are therefore those with
k * dt < d, i.e. (d - 1) / dt of them. -/
def nSamples (d : Nat) : Nat := (d - 1) / dt

/-- The ADC sum accumulated by those reads, for a given reading sequence
(readv k is the value returned by the k-th analogRead). -/
def acqSum (readv : Nat → Nat) (d : Nat) : Nat :=
  ((List.range (nSamples d)).map (fun k => readv (k + 1))).sum

end PhotoSimple

namespace Shutter

/-- setDuration of the shutter sketch (lines 272-276 of the combined
source): only when parameters.Size() > 0, duration1 = strtoul(parameters[0]).
Parameters are modelled as their strtoul values. -/
def setDuration (params : List Nat) (duration1 : Nat) : Nat :=
  match params with
  | [] => duration1
  | v :: _ => v

end Shutter

namespace PhotoCmd

/-- setDuration of both photodiode sketches: identical guard to the shutter
setter — only when parameters.Size() > 0 is duration1 overwritten. -/
def setDuration (params : List Nat) (duration1 : Nat) : Nat :=
  match params with
  | [] => duration1
  | v :: _ => v

end PhotoCmd

namespace CLib

/-- Decimal digit accumulator of atol: consume leading digits, stop at the
first non-digit. -/
def digitsVal : List Char → Nat → Nat
  | [], acc => acc
  | c :: cs, acc =>
    if c.isDigit then digitsVal cs (acc * 10 + (c.toNat - 48)) else acc

/-- atol, the conversion behind Arduino String::toInt: skip leading
whitespace, read an optional sign, then decimal digits; no digits yields 0.
atol overflows (magnitude at or above 2^31) are undefined behaviour in C and
are not modelled; every theorem below applies it to in-range inputs only. -/
def atol (s : String) : Int :=
  let cs := s.data.dropWhile Char.isWhitespace
  match cs with
  | '-' :: rest => -(digitsVal rest 0 : Int)
  | '+' :: rest => (digitsVal rest 0 : Int)
  | _ => (digitsVal cs 0 : Int)

/-- The long -> int assignment on AVR (16-bit int): two's-complement
truncation modulo 2^16. -/
def toInt16 (v : Int) : Int := (v + 2 ^ 15) % 2 ^ 16 - 2 ^ 15

/-- The Arduino constrain macro: (v < lo) ? lo : ((v > hi) ? hi : v). -/
def constrain (v lo hi : Int) : Int :=
  if v < lo then lo else if v > hi then hi else v

end CLib

namespace PulseGen

/-- delays array after setup(): every channel initialised to 2000.  The
array is declared int; values are held as Int with the AVR int range as
invariant. -/
def delaysInit : List Int := [2000, 2000, 2000, 2000, 2000, 2000, 2000, 2000]

/-- getDelay (PulseGeneratorSCPI.ino lines 111-124): with the numeric
suffix already extracted by sscanf (-1 when the header holds no number), the
handler prints delays[suffix] only when 0 <= suffix < NCHAN; otherwise it
produces no response.  The serial response is modelled as the printed Int
(none when nothing is printed). -/
def getDelay (suffix : Int) (delays : List Int) : Option Int :=
  if 0 ≤ suffix ∧ suffix < 8 then some (delays.getD suffix.toNat 0) else none

/-- setDelay (PulseGeneratorSCPI.ino lines 126-141): build
first_parameter = String(parameters.First()) — the NULL returned by First()
on an empty parameter list becomes the empty string — and, when
0 <= suffix < NCHAN, store first_parameter.toInt() into delays[suffix]
(atol, then the long -> 16-bit-int truncation).  There is no
parameters.Size() check and no bounds validation on the value. -/
def setDelay (suffix : Int) (params : List String) (delays : List Int) : List Int :=
  let firstParameter := params.headD ""
  if 0 ≤ suffix ∧ suffix < 8 then
    delays.set suffix.toNat (CLib.toInt16 (CLib.atol firstParameter))
  else delays

/-- A periodic timer2 task for the repetition-rate driver: the instant it
was installed and its period, an int number of milliseconds.  The period is
none when it was computed from rate 0: the C expression
(int)round(1000 / 0.0) converts infinity to int, which is undefined, so the
embedding guards that division and records no defined period. -/
structure RepDriver where
  start : Nat
  period : Option Int
  deriving DecidableEq, Repr

/-- The repetition-rate state: the single timer2 slot and the repRate
global (a double, modelled as a rational). -/
structure RepSt where
  driver : Option RepDriver
  repRate : Rat
  deriving DecidableEq, Repr

/-- updateRepRate (PulseGeneratorSCPI.ino lines 88-94): timer2.cancel()
clears the previous periodic driver; int repTime = round(1000 / repRateHz)
is installed as a fresh every-task (first due one full period after now);
the repRate global is overwritten.  No branch examines the value of
repRateHz.  round on a positive double agrees with Mathlib round (half away
from zero versus half up coincide on positives).  repTime is a 16-bit AVR
int: avr-gcc converts the rounded double through a 32-bit integer and
truncates to 16 bits, so the stored period is the two's-complement
truncation of round(1000 / repRateHz), modelled with toInt16 (assuming the
rounded value fits in 32 bits, true for every rate used below). -/
def updateRepRate (repRateHz : Rat) (now : Nat) (_s : RepSt) : RepSt :=
  let repTime : Option Int :=
    if repRateHz = 0 then none
    else some (CLib.toInt16 (round ((1000 : Rat) / repRateHz)))
  { driver := some (RepDriver.mk now repTime), repRate := repRateHz }

/-- getRepRate (lines 102-104): print the repRate global. -/
def getRepRate (s : RepSt) : Rat := s.repRate

end PulseGen

namespace Leds

/-- getBrightness (LEDsSCPI.ino lines 90-101): respond with brights[suffix]
only when the sscanf suffix satisfies 0 <= suffix < NLED. -/
def getBrightness (suffix : Int) (brights : List Int) : Option Int :=
  if 0 ≤ suffix ∧ suffix < 6 then some (brights.getD suffix.toNat 0) else none

/-- setBrightness (LEDsSCPI.ino lines 103-118): when 0 <= suffix < NLED and
parameters.Size() > 0, store constrain(value, 0, 255) where value is the
toInt conversion of the first parameter (parameters are modelled as their
converted Int values). -/
def setBrightness (suffix : Int) (params : List Int) (brights : List Int) : List Int :=
  if 0 ≤ suffix ∧ suffix < 6 then
    match params with
    | [] => brights
    | v :: _ => brights.set suffix.toNat (CLib.constrain v 0 255)
  else brights

/-- getDuration (LEDsSCPI.ino lines 120-131): respond with
durations[suffix] only when 0 <= suffix < NLED. -/
def getDuration (suffix : Int) (durations : List Nat) : Option Nat :=
  if 0 ≤ suffix ∧ suffix < 6 then some (durations.getD suffix.toNat 0) else none

/-- setDuration (LEDsSCPI.ino lines 133-148): when 0 <= suffix < NLED and
parameters.Size() > 0, store strtoul(parameters[0]) into durations[suffix]
with no bounds validation (parameters are modelled as their strtoul values,
which lie below 2^32). -/
def setDuration (suffix : Int) (params : List Nat) (durations : List Nat) : List Nat :=
  if 0 ≤ suffix ∧ suffix < 6 then
    match params with
    | [] => durations
    | v :: _ => durations.set suffix.toNat v
  else durations

end Leds

end SidekickEPICS

namespace SidekickEPICS

namespace PulseGen

/-- Helper: every channel rise task built by an accepted trigger is in the
resulting queue. -/
theorem rise_mem_trigStart {now : Nat} {s : St} (hq : s.queue = []) {i : Nat}
    (hi : i < NCHAN) :
    Task.mk ((now + 1000) + s.delays.getD i 0) (Act.ttlStart (chanPins.getD i 0)) ∈
      (trigStart now s).queue := by
  simp only [trigStart, hq, List.length_nil, Nat.zero_lt_one, if_pos, List.nil_append]
  refine List.mem_append.mpr (Or.inr ?_)
  exact List.mem_map.mpr ⟨i, List.mem_range.mpr hi, rfl⟩

/-- Helper: a task that is not yet due survives a tick. -/
theorem mem_tick_queue_of_not_due {now : Nat} {s : St} {tk : Task}
    (h : tk ∈ s.queue) (hd : now < tk.deadline) : tk ∈ (tick now s).1.queue := by
  simp only [tick]
  refine List.mem_append.mpr (Or.inl ?_)
  refine List.mem_filter.mpr ⟨h, ?_⟩
  simp [due]
  omega

/-- Helper: a due task fires in this tick. -/
theorem mem_tick_fired_of_due {now : Nat} {s : St} {tk : Task}
    (h : tk ∈ s.queue) (hd : tk.deadline ≤ now) : tk ∈ (tick now s).2 := by
  simp only [tick]
  exact List.mem_filter.mpr ⟨h, by simp [due, hd]⟩

/-- Helper: a fired log entry records a trace instant at which the fired
task was due. -/
theorem run_log_due {trace : List Nat} {s : St} {t : Nat} {tk : Task}
    (h : (t, tk) ∈ (run trace s).2) : t ∈ trace ∧ tk.deadline ≤ t := by
  induction trace generalizing s with
  | nil => simp [run] at h
  | cons a ts ih =>
    simp only [run, List.mem_append, List.mem_map] at h
    rcases h with ⟨tk', htk', heq⟩ | h
    · obtain ⟨h1, h2⟩ := Prod.mk.injEq .. ▸ heq
      subst h1
      subst h2
      have := List.mem_filter.mp htk'
      simp only [due, decide_eq_true_eq] at this
      exact ⟨List.mem_cons_self a ts, this.2⟩
    · obtain ⟨h1, h2⟩ := ih h
      exact ⟨List.mem_cons_of_mem a h1, h2⟩

/-- Helper: a queued task fires at the first trace instant at which its
deadline has elapsed. -/
theorem run_mem_log_firstHit {trace : List Nat} {s : St} {tk : Task} {t : Nat}
    (hmem : tk ∈ s.queue) (hfh : firstHit trace tk.deadline = some t) :
    (t, tk) ∈ (run trace s).2 := by
  induction trace generalizing s with
  | nil => simp [firstHit] at hfh
  | cons a ts ih =>
    by_cases h : tk.deadline ≤ a
    · have ha : firstHit (a :: ts) tk.deadline = some a := by
        simp [firstHit, List.find?_cons_of_pos, h]
      rw [ha] at hfh
      obtain rfl := Option.some.injEq .. ▸ hfh
      simp only [run, List.mem_append, List.mem_map]
      exact Or.inl ⟨tk, mem_tick_fired_of_due hmem h, rfl⟩
    · have ha : firstHit (a :: ts) tk.deadline = firstHit ts tk.deadline := by
        simp [firstHit, List.find?_cons_of_neg, h]
      rw [ha] at hfh
      simp only [run, List.mem_append, List.mem_map]
      exact Or.inr (ih (mem_tick_queue_of_not_due hmem (by omega)) hfh)

/-- Helper: on a weakly increasing trace, the first hit of a deadline is no
later than any trace instant at which that deadline has already elapsed. -/
theorem firstHit_le {trace : List Nat} {d t2 : Nat}
    (hsort : trace.Pairwise (· ≤ ·)) (ht2 : t2 ∈ trace) (hd : d ≤ t2) :
    ∃ t1, firstHit trace d = some t1 ∧ t1 ≤ t2 := by
  induction trace with
  | nil => simp at ht2
  | cons a ts ih =>
    by_cases h : d ≤ a
    · refine ⟨a, by simp [firstHit, List.find?_cons_of_pos, h], ?_⟩
      rcases List.mem_cons.mp ht2 with rfl | hmem
      · exact le_refl t2
      · exact (List.pairwise_cons.mp hsort).1 t2 hmem
    · have ht2' : t2 ∈ ts := by
        rcases List.mem_cons.mp ht2 with rfl | hmem
        · omega
        · exact hmem
      obtain ⟨t1, hfh, hle⟩ := ih (List.pairwise_cons.mp hsort).2 ht2'
      exact ⟨t1, by simp [firstHit, List.find?_cons_of_neg, h] at hfh ⊢; exact hfh, hle⟩

/-- Helper: among two tasks queued together, the one with the strictly
earlier deadline fires no later than the other, on any weakly increasing
tick trace. -/
theorem fires_no_later {s : St} {trace : List Nat} {tk1 tk2 : Task} {t2 : Nat}
    (h1 : tk1 ∈ s.queue) (hlt : tk1.deadline < tk2.deadline)
    (hsort : trace.Pairwise (· ≤ ·)) (hfire : (t2, tk2) ∈ (run trace s).2) :
    ∃ t1, t1 ≤ t2 ∧ (t1, tk1) ∈ (run trace s).2 := by
  obtain ⟨ht2, hdue⟩ := run_log_due hfire
  obtain ⟨t1, hfh, hle⟩ := firstHit_le hsort ht2 (le_of_lt (lt_of_lt_of_le hlt hdue))
  exact ⟨t1, hle, run_mem_log_firstHit h1 hfh⟩

/-- Helper: a list whose elements all map to the same Nat is pairwise
weakly increasing under that map. -/
theorem pairwise_le_of_const {α : Type} {f : α → Nat} {l : List α} {n : Nat}
    (h : ∀ a ∈ l, f a = n) : l.Pairwise (fun a b => f a ≤ f b) := by
  induction l with
  | nil => exact List.Pairwise.nil
  | cons a ts ih =>
    refine List.pairwise_cons.mpr ⟨?_, ih (fun b hb => h b (List.mem_cons_of_mem a hb))⟩
    intro b hb
    rw [h a (List.mem_cons_self a ts), h b (List.mem_cons_of_mem a hb)]

/-- Helper: under dense ticking from instant n, starting from a queue whose
deadlines are all at least n (and with a positive pulse width, so spawned
fall tasks always lie in the future), the fired log is weakly increasing in
deadline, and every logged deadline is at least n. -/
theorem run_dense_sorted {k : Nat} : ∀ {n : Nat} {s : St},
    (∀ tk ∈ s.queue, n ≤ tk.deadline) → 1 ≤ s.pulseTime →
    List.Pairwise (fun p q => p.2.deadline ≤ q.2.deadline)
      (run (denseFrom n k) s).2 ∧
    (∀ p ∈ (run (denseFrom n k) s).2, n ≤ p.2.deadline) := by
  induction k with
  | zero => intro n s _ _; simp [denseFrom, run]
  | succ k ih =>
    intro n s hinv hpt
    have hfired : ∀ tk ∈ (tick n s).2, tk.deadline = n := by
      intro tk htk
      have := List.mem_filter.mp htk
      simp only [due, decide_eq_true_eq] at this
      exact le_antisymm this.2 (hinv tk this.1)
    have hinv' : ∀ tk ∈ (tick n s).1.queue, n + 1 ≤ tk.deadline := by
      intro tk htk
      simp only [tick, List.mem_append] at htk
      rcases htk with h | h
      · have := List.mem_filter.mp h
        simp only [Bool.not_eq_true', due, decide_eq_false_iff_not] at this
        omega
      · simp only [List.mem_flatten, List.mem_map] at h
        obtain ⟨l, ⟨tk', _, rfl⟩, hl⟩ := h
        rcases tk' with ⟨d, a⟩
        cases a with
        | ttlStart pin =>
          simp only [spawn, List.mem_singleton] at hl
          subst hl
          show n + 1 ≤ n + s.pulseTime
          omega
        | ttlStop pin => simp [spawn] at hl
    have hpt' : 1 ≤ (tick n s).1.pulseTime := hpt
    obtain ⟨hsorted, hge⟩ := ih hinv' hpt'
    constructor
    · simp only [denseFrom, run]
      rw [List.pairwise_append]
      refine ⟨?_, hsorted, ?_⟩
      · rw [List.pairwise_map]
        exact pairwise_le_of_const hfired
      · intro p hp q hq
        simp only [List.mem_map] at hp
        obtain ⟨tk, htk, rfl⟩ := hp
        rw [hfired tk htk]
        exact le_trans (Nat.le_succ n) (hge q hq)
    · intro p hp
      simp only [denseFrom, run, List.mem_append, List.mem_map] at hp
      rcases hp with ⟨tk, htk, rfl⟩ | hp
      · rw [hfired tk htk]
      · exact le_trans (Nat.le_succ n) (hge p hp)

end PulseGen

/-- C1: Overlap rejection — a trigger arriving while the timer core still
holds at least one live scheduled event enqueues nothing, does not overwrite
t0 and leaves the channel schedule table untouched: the pulse-generator and
LED handlers leave the whole state unchanged, and the streaming-photodiode
handler changes nothing but the always-incremented trigger counter. -/
theorem overlap_rejection (now : Nat) (s : PulseGen.St)
    (hs : 1 ≤ s.queue.length) (nowL : Nat) (sL : Leds.St)
    (hL : 1 ≤ sL.queue.length) (nowP : Nat) (sP : PhotoAdv.St)
    (hP : 1 ≤ sP.queue.length) :
    PulseGen.trigStart now s = s ∧
    Leds.myISR nowL sL = sL ∧
    PhotoAdv.myISR nowP sP = { sP with trigcnt := sP.trigcnt + 1 } := by
  refine ⟨?_, ?_, ?_⟩
  · simp only [PulseGen.trigStart]
    rw [if_neg]
    omega
  · simp only [Leds.myISR]
    rw [if_neg]
    omega
  · simp only [PhotoAdv.myISR]
    rw [if_neg]
    simp only [Bool.and_eq_true, decide_eq_true_eq, not_and]
    intro h
    omega

/-- C1 witness: concrete busy states on all three devices. -/
theorem overlap_rejection_witness :
    PulseGen.trigStart 5000
        (PulseGen.St.mk [PulseGen.Task.mk 6000 (PulseGen.Act.ttlStart 4)] 1000
          [2000, 2000, 2000, 2000, 2000, 2000, 2000, 2000] 3000) =
      PulseGen.St.mk [PulseGen.Task.mk 6000 (PulseGen.Act.ttlStart 4)] 1000
        [2000, 2000, 2000, 2000, 2000, 2000, 2000, 2000] 3000 ∧
    Leds.myISR 5000
        (Leds.St.mk [Leds.Task.mk 6000 (Leds.Act.ledStop 0)] 1000
          [200000, 500000, 150000, 400000, 350000, 100000]
          [200, 200, 200, 200, 200, 200]) =
      Leds.St.mk [Leds.Task.mk 6000 (Leds.Act.ledStop 0)] 1000
        [200000, 500000, 150000, 400000, 350000, 100000]
        [200, 200, 200, 200, 200, 200] ∧
    PhotoAdv.myISR 5000
        (PhotoAdv.St.mk [PhotoAdv.Task.mk 6000 PhotoAdv.Act.daqStop] 1000
          7 3 0 0 4 4 3 400000 400000 0 0 0 0 false false) =
      PhotoAdv.St.mk [PhotoAdv.Task.mk 6000 PhotoAdv.Act.daqStop] 1000
        7 3 0 0 5 4 3 400000 400000 0 0 0 0 false false := by
  have h := overlap_rejection 5000
    (PulseGen.St.mk [PulseGen.Task.mk 6000 (PulseGen.Act.ttlStart 4)] 1000
      [2000, 2000, 2000, 2000, 2000, 2000, 2000, 2000] 3000) (by decide)
    5000
    (Leds.St.mk [Leds.Task.mk 6000 (Leds.Act.ledStop 0)] 1000
      [200000, 500000, 150000, 400000, 350000, 100000]
      [200, 200, 200, 200, 200, 200]) (by decide)
    5000
    (PhotoAdv.St.mk [PhotoAdv.Task.mk 6000 PhotoAdv.Act.daqStop] 1000
      7 3 0 0 4 4 3 400000 400000 0 0 0 0 false false) (by decide)
  exact h

/-- C9: in the pulse-generator variant, DELay:CHannelN with a valid channel
suffix and an empty parameter list still writes the delay table, storing the
integer conversion of the absent parameter — String(NULL).toInt() = 0 —
into delays[suffix]; the shutter, photodiode and LED duration setters check
parameters.Size() and leave their settings unchanged on an empty list. -/
theorem setDelay_empty_params (suffix : Int) (h0 : 0 ≤ suffix)
    (h8 : suffix < 8) (delays : List Int) (d1 d2 : Nat) (sfx : Int)
    (durations : List Nat) :
    PulseGen.setDelay suffix [] delays = delays.set suffix.toNat 0 ∧
    Shutter.setDuration [] d1 = d1 ∧
    PhotoCmd.setDuration [] d2 = d2 ∧
    Leds.setDuration sfx [] durations = durations := by
  refine ⟨?_, rfl, rfl, ?_⟩
  · have hz : CLib.toInt16 (CLib.atol "") = 0 := by decide
    simp only [PulseGen.setDelay, List.headD, if_pos (And.intro h0 h8), hz]
  · simp only [Leds.setDuration]
    by_cases h : 0 ≤ sfx ∧ sfx < 6
    · rw [if_pos h]
    · rw [if_neg h]

/-- C9 witness: suffix 3, empty parameter list; the delay entry is
overwritten with 0 while the other setters no-op. -/
theorem setDelay_empty_params_witness :
    PulseGen.setDelay 3 [] PulseGen.delaysInit =
      PulseGen.delaysInit.set 3 0 ∧
    Shutter.setDuration [] 500000 = 500000 ∧
    PhotoCmd.setDuration [] 400000 = 400000 ∧
    Leds.setDuration 2 [] [200000, 500000, 150000, 400000, 350000, 100000] =
      [200000, 500000, 150000, 400000, 350000, 100000] := by
  have h := setDelay_empty_params 3 (by decide) (by decide) PulseGen.delaysInit
    500000 400000 2 [200000, 500000, 150000, 400000, 350000, 100000]
  exact h

/-- C10: updateRepRate performs no validation: for rate 0 the C code would
evaluate (int)round(1000 / 0.0) — a division by zero whose int conversion is
undefined, guarded in this embedding by recording no defined period — yet it
still installs a fresh periodic driver and records 0 as the rate, so a
subsequent REPrate? query returns 0; no branch rejects a non-positive
rate (the rate global and the driver are overwritten unconditionally). -/
theorem updateRepRate_no_validation (now : Nat) (s : PulseGen.RepSt) :
    (PulseGen.updateRepRate 0 now s).driver =
      some (PulseGen.RepDriver.mk now none) ∧
    PulseGen.getRepRate (PulseGen.updateRepRate 0 now s) = 0 ∧
    (∀ (r : Rat) (now2 : Nat) (s2 : PulseGen.RepSt),
      (PulseGen.updateRepRate r now2 s2).repRate = r ∧
      ((PulseGen.updateRepRate r now2 s2).driver).isSome = true) := by
  refine ⟨?_, rfl, ?_⟩
  · simp [PulseGen.updateRepRate]
  · intro r now2 s2
    exact ⟨rfl, rfl⟩

/-- C8: every get/set accessor keyed by a numeric channel suffix ignores an
out-of-range (including unparsable, i.e. -1) suffix silently — the set
leaves the table unchanged and the get produces no response; an in-range
brightness set stores the input clamped to 0..255; the delay and duration
setters store the converted value with no bounds validation. -/
theorem accessor_range_policy :
    (∀ (suffix : Int) (params : List String) (delays : List Int),
      ¬(0 ≤ suffix ∧ suffix < 8) →
      PulseGen.setDelay suffix params delays = delays ∧
      PulseGen.getDelay suffix delays = none) ∧
    (∀ (suffix : Int) (paramsB : List Int) (paramsD : List Nat)
      (brights : List Int) (durations : List Nat),
      ¬(0 ≤ suffix ∧ suffix < 6) →
      Leds.setBrightness suffix paramsB brights = brights ∧
      Leds.getBrightness suffix brights = none ∧
      Leds.setDuration suffix paramsD durations = durations ∧
      Leds.getDuration suffix durations = none) ∧
    (∀ (suffix : Int) (v : Int) (rest : List Int) (brights : List Int),
      0 ≤ suffix → suffix < 6 →
      Leds.setBrightness suffix (v :: rest) brights =
        brights.set suffix.toNat (max 0 (min v 255))) ∧
    (∀ (suffix : Int) (v : Nat) (rest : List Nat) (durations : List Nat),
      0 ≤ suffix → suffix < 6 →
      Leds.setDuration suffix (v :: rest) durations =
        durations.set suffix.toNat v) ∧
    (∀ (suffix : Int) (p : String) (rest : List String) (delays : List Int),
      0 ≤ suffix → suffix < 8 →
      PulseGen.setDelay suffix (p :: rest) delays =
        delays.set suffix.toNat (CLib.toInt16 (CLib.atol p))) := by
  refine ⟨?_, ?_, ?_, ?_, ?_⟩
  · intro suffix params delays h
    exact ⟨by simp [PulseGen.setDelay, if_neg h],
           by simp [PulseGen.getDelay, if_neg h]⟩
  · intro suffix paramsB paramsD brights durations h
    exact ⟨by simp [Leds.setBrightness, if_neg h],
           by simp [Leds.getBrightness, if_neg h],
           by simp [Leds.setDuration, if_neg h],
           by simp [Leds.getDuration, if_neg h]⟩
  · intro suffix v rest brights h0 h6
    simp only [Leds.setBrightness, if_pos (And.intro h0 h6)]
    have : CLib.constrain v 0 255 = max 0 (min v 255) := by
      simp only [CLib.constrain]
      rcases lt_trichotomy v 0 with h | h | h <;> omega
    rw [this]
  · intro suffix v rest durations h0 h6
    simp only [Leds.setDuration, if_pos (And.intro h0 h6)]
  · intro suffix p rest delays h0 h8
    simp only [PulseGen.setDelay, List.headD, if_pos (And.intro h0 h8)]

/-- C8 witness: suffix 9 on the pulse generator and 6 and -1 on the LED
accessors are silent no-ops; an in-range brightness set clamps 300 to 255;
in-range delay and duration sets store the converted values. -/
theorem accessor_range_policy_witness :
    PulseGen.setDelay 9 ["123"] PulseGen.delaysInit = PulseGen.delaysInit ∧
    PulseGen.getDelay 9 PulseGen.delaysInit = none ∧
    Leds.setBrightness 6 [300] [200, 200, 200, 200, 200, 200] =
      [200, 200, 200, 200, 200, 200] ∧
    Leds.getBrightness (-1) [200, 200, 200, 200, 200, 200] = none ∧
    Leds.setBrightness 1 [300] [200, 200, 200, 200, 200, 200] =
      [200, 255, 200, 200, 200, 200] ∧
    Leds.setDuration 1 [700000] [200000, 500000, 150000, 400000, 350000, 100000] =
      [200000, 700000, 150000, 400000, 350000, 100000] ∧
    PulseGen.setDelay 1 ["5000"] PulseGen.delaysInit =
      PulseGen.delaysInit.set 1 5000 := by
  have h := accessor_range_policy
  have h1 := h.1 9 ["123"] PulseGen.delaysInit (by decide)
  have h2 := h.2.1 6 [300] [700000] [200, 200, 200, 200, 200, 200]
    [200000, 500000, 150000, 400000, 350000, 100000] (by decide)
  have h2b := h.2.1 (-1) [300] [700000] [200, 200, 200, 200, 200, 200]
    [200000, 500000, 150000, 400000, 350000, 100000] (by decide)
  have h3 := h.2.2.1 1 300 [] [200, 200, 200, 200, 200, 200]
    (by decide) (by decide)
  have h4 := h.2.2.2.1 1 700000 []
    [200000, 500000, 150000, 400000, 350000, 100000] (by decide) (by decide)
  have h5 := h.2.2.2.2 1 "5000" [] PulseGen.delaysInit (by decide) (by decide)
  refine ⟨h1.1, h1.2, h2.1, h2b.2.1, ?_, ?_, ?_⟩
  · rw [h3]
    decide
  · rw [h4]
    decide
  · rw [h5]
    decide

/-- C3 (code bug witness): the delay round trip documented as exact on the
unsigned-long domain truncates: DELay:CHannel0 70000 followed by
DELay:CHannel0? answers 4464 = 70000 mod 2^16, because String::toInt's long
result is assigned to a 16-bit int array entry. -/
theorem delay_roundtrip_truncates :
    PulseGen.getDelay 0 (PulseGen.setDelay 0 ["70000"] PulseGen.delaysInit) =
      some 4464 ∧
    PulseGen.getDelay 0 (PulseGen.setDelay 0 ["70000"] PulseGen.delaysInit) ≠
      some 70000 := by
  decide

/-- C4 counterexample: with debug mode enabled, an acquisition completing
with sampleCount = 0 does evaluate a division by zero in the stop path —
the diagnostic line dt = duration_daq / ncounts_daq divides by
ncounts_daq = 0 — refuting the claim that no division by zero is evaluated
anywhere in the stop path. -/
theorem daqStop_divzero_counterexample :
    (PhotoAdv.St.mk [] 1000 0 0 0 0 1 1 0 100 100 0 0 0 0 true false).ncounts
        = 0 ∧
    (PhotoAdv.DAQStop
        (PhotoAdv.St.mk [] 1000 0 0 0 0 1 1 0 100 100 0 0 0 0 true false)).2
        = true := by
  decide

/-- C4 (amended): an acquisition completing with sampleCount = 0 takes the
guarded branch (average 0) and reports an integration result of exactly 0,
and no division by zero is evaluated in the stop path provided debug mode is
disabled (the default); with debug mode enabled the diagnostic print divides
duration_daq by the zero sample count. -/
theorem daqStop_zero_sample_guard (s : PhotoAdv.St) (h : s.ncounts = 0) :
    (PhotoAdv.DAQStop s).1.avgDaq = 0 ∧
    (PhotoAdv.DAQStop s).1.integration = 0 ∧
    (s.debugmode = false → (PhotoAdv.DAQStop s).2 = false) := by
  refine ⟨?_, ?_, ?_⟩ <;> simp [PhotoAdv.DAQStop, h]

/-- C4 witness: a debug-disabled acquisition with zero samples: average 0,
result exactly 0, no division by zero evaluated. -/
theorem daqStop_zero_sample_guard_witness :
    (PhotoAdv.DAQStop
        (PhotoAdv.St.mk [] 1000 0 0 0 0 1 1 0 100 100 0 0 0 0 false false)).1.avgDaq
        = 0 ∧
    (PhotoAdv.DAQStop
        (PhotoAdv.St.mk [] 1000 0 0 0 0 1 1 0 100 100 0 0 0 0 false false)).1.integration
        = 0 ∧
    (PhotoAdv.DAQStop
        (PhotoAdv.St.mk [] 1000 0 0 0 0 1 1 0 100 100 0 0 0 0 false false)).2
        = false := by
  have h := daqStop_zero_sample_guard
    (PhotoAdv.St.mk [] 1000 0 0 0 0 1 1 0 100 100 0 0 0 0 false false) rfl
  exact ⟨h.1, h.2.1, h.2.2 rfl⟩

/-- C5 counterexample: in the simple photodiode variant, an ideal
acquisition of duration 300 us (one 255-valued sample, taken at
t0 + 200 us) reports (sum * dt) * (fullScale ratio) * 1e-6 = 33/50000
volt-seconds, while the claimed average-based formula
(runningSum / sampleCount) * (fullScaleVolts / fullScaleCounts) *
(durationMicros * 1e-6) gives 99/100000: the claim fails in this variant. -/
theorem integration_formula_counterexample :
    0 < PhotoSimple.nSamples 300 ∧
    PhotoSimple.stopIntegration (PhotoSimple.acqSum (fun _ => 255) 300) ≠
      ((PhotoSimple.acqSum (fun _ => 255) 300 : Rat) /
          (PhotoSimple.nSamples 300 : Rat)) *
        (PhotoSimple.areadmaxvolts / (PhotoSimple.areadmax : Rat)) *
        ((300 : Rat) * (1 / 1000000)) := by
  constructor
  · decide
  · have h1 : PhotoSimple.acqSum (fun _ => 255) 300 = 255 := by decide
    have h2 : PhotoSimple.nSamples 300 = 1 := by decide
    rw [h1, h2]
    simp only [PhotoSimple.stopIntegration, PhotoSimple.dt,
      PhotoSimple.areadmaxvolts, PhotoSimple.areadmax]
    norm_num

/-- C5 (amended): the streaming variant's result equals
(runningSum / sampleCount) * (fullScaleVolts / fullScaleCounts) *
(durationMicros * 1e-6) exactly as claimed; the simple variant instead
reports (runningSum * dt) * (fullScaleVolts / fullScaleCounts) * 1e-6,
which coincides with the claimed formula exactly when
sampleCount * dt = durationMicros. -/
theorem integration_formula (s : PhotoAdv.St) (h : 0 < s.ncounts)
    (sum n d : Nat) (hn : 0 < n) (hd : n * PhotoSimple.dt = d)
    (hof : sum * PhotoSimple.dt < 2 ^ 32) :
    (PhotoAdv.DAQStop s).1.integration =
      ((s.sum : Rat) / (s.ncounts : Rat)) *
        (PhotoAdv.areadmaxvolts / (PhotoAdv.areadmax : Rat)) *
        ((s.durationDaq : Rat) * (1 / 1000000)) ∧
    PhotoSimple.stopIntegration sum =
      ((sum : Rat) / (n : Rat)) *
        (PhotoSimple.areadmaxvolts / (PhotoSimple.areadmax : Rat)) *
        ((d : Rat) * (1 / 1000000)) := by
  constructor
  · simp [PhotoAdv.DAQStop, h]
  · subst hd
    simp only [PhotoSimple.stopIntegration]
    rw [Nat.mod_eq_of_lt hof]
    simp only [PhotoSimple.areadmaxvolts, PhotoSimple.areadmax, PhotoSimple.dt]
    have hn' : (n : Rat) ≠ 0 := Nat.cast_ne_zero.mpr (Nat.pos_iff_ne_zero.mp hn)
    push_cast
    field_simp
    ring

/-- C5 witness: streaming variant with sum 500 over 2 samples and a
captured duration of 400000 us; simple variant with sum 10 over 2 samples
and duration 400 us. -/
theorem integration_formula_witness :
    (PhotoAdv.DAQStop
        (PhotoAdv.St.mk [] 1000 500 2 0 0 1 1 0 400000 400000 0 0 0 0 false
          false)).1.integration =
      ((500 : Rat) / 2) * (PhotoAdv.areadmaxvolts / (PhotoAdv.areadmax : Rat)) *
        ((400000 : Rat) * (1 / 1000000)) ∧
    PhotoSimple.stopIntegration 10 =
      ((10 : Rat) / 2) *
        (PhotoSimple.areadmaxvolts / (PhotoSimple.areadmax : Rat)) *
        ((400 : Rat) * (1 / 1000000)) := by
  have h := integration_formula
    (PhotoAdv.St.mk [] 1000 500 2 0 0 1 1 0 400000 400000 0 0 0 0 false false)
    (by decide) 10 2 400 (by decide) (by decide) (by decide)
  have h1 := h.1
  have h2 := h.2
  norm_num at h1 h2 ⊢
  exact ⟨h1, h2⟩

/-- C2 counterexample: an accepted trigger on the pulse generator (empty
timer, now = 0, delays all 2000, width 3000) enqueues the channel-0 rise at
t0 + 2000 = 3000, but the queue holds no event at all with deadline
t0 + delay + width = 6000: the trigger handler does not enqueue the
matching fall events the claim describes (they are scheduled later, by each
rise callback when it fires). -/
theorem trigger_schedule_counterexample :
    (PulseGen.St.mk [] 0 [2000, 2000, 2000, 2000, 2000, 2000, 2000, 2000]
        3000).queue.length < 1 ∧
    PulseGen.Task.mk 3000 (PulseGen.Act.ttlStart 4) ∈
      (PulseGen.trigStart 0
        (PulseGen.St.mk [] 0 [2000, 2000, 2000, 2000, 2000, 2000, 2000, 2000]
          3000)).queue ∧
    ∀ tk ∈ (PulseGen.trigStart 0
        (PulseGen.St.mk [] 0 [2000, 2000, 2000, 2000, 2000, 2000, 2000, 2000]
          3000)).queue, tk.deadline ≠ 6000 := by
  decide

/-- C2 (amended): on every accepted trigger the pulse-generator handler
sets t0 = now + 1000 (a lead-in of exactly 1000 us, within the stated
1000-2000 us range) and enqueues one rise event per channel at
t0 + delay[i], but enqueues no fall events at all — each fall is enqueued
only when its rise callback fires, with deadline equal to the firing
instant plus the fixed width (so equal to t0 + delay[i] + width only when
the rise fires exactly on time); the LED handler enqueues both the rise at
t0 (its channel model has no delay) and the fall at t0 + duration[i] at
trigger time. -/
theorem trigger_schedule (now : Nat) (s : PulseGen.St) (hq : s.queue = [])
    (nowL : Nat) (sL : Leds.St) (hqL : sL.queue = []) :
    (PulseGen.trigStart now s).t0 = now + 1000 ∧
    (∀ i, i < 8 →
      PulseGen.Task.mk ((now + 1000) + s.delays.getD i 0)
          (PulseGen.Act.ttlStart (PulseGen.chanPins.getD i 0)) ∈
        (PulseGen.trigStart now s).queue) ∧
    (∀ tk ∈ (PulseGen.trigStart now s).queue,
      ∃ pin, tk.act = PulseGen.Act.ttlStart pin) ∧
    (∀ (now2 : Nat) (s2 : PulseGen.St) (d pin : Nat),
      PulseGen.Task.mk d (PulseGen.Act.ttlStart pin) ∈ s2.queue → d ≤ now2 →
      PulseGen.Task.mk (now2 + s2.pulseTime) (PulseGen.Act.ttlStop pin) ∈
        (PulseGen.tick now2 s2).1.queue) ∧
    (Leds.myISR nowL sL).t0 = nowL + 1000 ∧
    (∀ i, i < 6 →
      Leds.Task.mk (nowL + 1000) (Leds.Act.ledStart i) ∈
        (Leds.myISR nowL sL).queue ∧
      Leds.Task.mk ((nowL + 1000) + sL.durations.getD i 0)
          (Leds.Act.ledStop i) ∈ (Leds.myISR nowL sL).queue) := by
  refine ⟨?_, ?_, ?_, ?_, ?_, ?_⟩
  · simp [PulseGen.trigStart, hq]
  · intro i hi
    exact PulseGen.rise_mem_trigStart hq hi
  · intro tk htk
    simp only [PulseGen.trigStart, hq, List.length_nil, Nat.zero_lt_one,
      if_pos, List.nil_append, List.mem_append, List.mem_singleton,
      List.mem_map, List.mem_range] at htk
    rcases htk with rfl | ⟨i, _, rfl⟩
    · exact ⟨PulseGen.TRIGOUT, rfl⟩
    · exact ⟨PulseGen.chanPins.getD i 0, rfl⟩
  · intro now2 s2 d pin hmem hdue
    simp only [PulseGen.tick, List.mem_append]
    refine Or.inr ?_
    simp only [List.mem_flatten, List.mem_map]
    refine ⟨PulseGen.spawn now2 s2.pulseTime
      (PulseGen.Task.mk d (PulseGen.Act.ttlStart pin)), ⟨?_, ?_⟩, ?_⟩
    · exact PulseGen.Task.mk d (PulseGen.Act.ttlStart pin)
    · exact ⟨List.mem_filter.mpr ⟨hmem, by simp [PulseGen.due, hdue]⟩, rfl⟩
    · simp [PulseGen.spawn]
  · simp [Leds.myISR, hqL]
  · intro i hi
    constructor
    · simp only [Leds.myISR, hqL, List.length_nil, Nat.zero_lt_one, if_pos,
        List.nil_append, List.mem_flatten, List.mem_map]
      exact ⟨[Leds.Task.mk (nowL + 1000) (Leds.Act.ledStart i),
        Leds.Task.mk ((nowL + 1000) + sL.durations.getD i 0)
          (Leds.Act.ledStop i)],
        ⟨i, List.mem_range.mpr hi, rfl⟩, by simp⟩
    · simp only [Leds.myISR, hqL, List.length_nil, Nat.zero_lt_one, if_pos,
        List.nil_append, List.mem_flatten, List.mem_map]
      exact ⟨[Leds.Task.mk (nowL + 1000) (Leds.Act.ledStart i),
        Leds.Task.mk ((nowL + 1000) + sL.durations.getD i 0)
          (Leds.Act.ledStop i)],
        ⟨i, List.mem_range.mpr hi, rfl⟩, by simp⟩

/-- C2 witness: from empty timers at instant 0 with the setup() tables, the
pulse generator arms t0 = 1000 with the channel-0 rise at 3000 and only
rise events queued; a due rise at deadline 3000 ticked at 3000 enqueues its
fall at 6000; the LED handler queues LED 2's rise at 1000 and fall at
1000 + 150000. -/
theorem trigger_schedule_witness :
    (PulseGen.trigStart 0
        (PulseGen.St.mk [] 0 [2000, 2000, 2000, 2000, 2000, 2000, 2000, 2000]
          3000)).t0 = 1000 ∧
    PulseGen.Task.mk 3000 (PulseGen.Act.ttlStart 4) ∈
      (PulseGen.trigStart 0
        (PulseGen.St.mk [] 0 [2000, 2000, 2000, 2000, 2000, 2000, 2000, 2000]
          3000)).queue ∧
    PulseGen.Task.mk 6000 (PulseGen.Act.ttlStop 4) ∈
      (PulseGen.tick 3000
        (PulseGen.St.mk [PulseGen.Task.mk 3000 (PulseGen.Act.ttlStart 4)] 1000
          [2000, 2000, 2000, 2000, 2000, 2000, 2000, 2000] 3000)).1.queue ∧
    Leds.Task.mk 1000 (Leds.Act.ledStart 2) ∈
      (Leds.myISR 0
        (Leds.St.mk [] 0 [200000, 500000, 150000, 400000, 350000, 100000]
          [200, 200, 200, 200, 200, 200])).queue ∧
    Leds.Task.mk 151000 (Leds.Act.ledStop 2) ∈
      (Leds.myISR 0
        (Leds.St.mk [] 0 [200000, 500000, 150000, 400000, 350000, 100000]
          [200, 200, 200, 200, 200, 200])).queue := by
  have h := trigger_schedule 0
    (PulseGen.St.mk [] 0 [2000, 2000, 2000, 2000, 2000, 2000, 2000, 2000]
      3000) rfl 0
    (Leds.St.mk [] 0 [200000, 500000, 150000, 400000, 350000, 100000]
      [200, 200, 200, 200, 200, 200]) rfl
  refine ⟨h.1, ?_, ?_, ?_, ?_⟩
  · have := h.2.1 0 (by decide)
    simpa using this
  · have := h.2.2.2.1 3000
      (PulseGen.St.mk [PulseGen.Task.mk 3000 (PulseGen.Act.ttlStart 4)] 1000
        [2000, 2000, 2000, 2000, 2000, 2000, 2000, 2000] 3000) 3000 4
      (by decide) (by decide)
    simpa using this
  · have := (h.2.2.2.2.2 2 (by decide)).1
    simpa using this
  · have := (h.2.2.2.2.2 2 (by decide)).2
    simpa using this

/-- C6 counterexample: enqueue order is channel order, so with delays
delays[0] = 500 and delays[1] = 100 the channel-0 rise (deadline 1500)
occupies an earlier slot than the channel-1 rise (deadline 1100); a single
delayed tick at 1600 (a weakly increasing trace) then fires the events in
slot order, in which the deadline-1500 event precedes the deadline-1100
event — the firing sequence is not in deadline order. -/
theorem deadline_ordering_counterexample :
    List.Pairwise (fun a b => a ≤ b) [1600] ∧
    ¬ List.Pairwise (fun p q => p.2.deadline ≤ q.2.deadline)
        (PulseGen.run [1600]
          (PulseGen.trigStart 0
            (PulseGen.St.mk [] 0 [500, 100, 0, 0, 0, 0, 0, 0] 3000))).2 := by
  decide

/-- C6 (amended): for channels with delays d1 < d2 scheduled from a shared
t0, the d1 rise fires at a tick instant no later than any at which the d2
rise fires, on every weakly increasing tick trace; within a single tick the
due events fire in slot (enqueue) order — a sublist of the queue — which
can invert deadline order when one tick is delayed past several deadlines;
when a tick occurs at every instant, the firing sequence is weakly
increasing in deadline (with same-deadline events firing in enqueue
order within their shared tick). -/
theorem deadline_ordering :
    (∀ (now : Nat) (s : PulseGen.St) (i j t2 : Nat) (trace : List Nat),
      s.queue = [] → i < 8 → j < 8 →
      s.delays.getD i 0 < s.delays.getD j 0 →
      trace.Pairwise (· ≤ ·) →
      (t2, PulseGen.Task.mk ((now + 1000) + s.delays.getD j 0)
          (PulseGen.Act.ttlStart (PulseGen.chanPins.getD j 0))) ∈
        (PulseGen.run trace (PulseGen.trigStart now s)).2 →
      ∃ t1, t1 ≤ t2 ∧
        (t1, PulseGen.Task.mk ((now + 1000) + s.delays.getD i 0)
            (PulseGen.Act.ttlStart (PulseGen.chanPins.getD i 0))) ∈
          (PulseGen.run trace (PulseGen.trigStart now s)).2) ∧
    (∀ (now : Nat) (s : PulseGen.St),
      ((PulseGen.tick now s).2).Sublist s.queue) ∧
    (∀ (T : Nat) (s : PulseGen.St), 1 ≤ s.pulseTime →
      List.Pairwise (fun p q => p.2.deadline ≤ q.2.deadline)
        (PulseGen.run (PulseGen.denseFrom 0 T) s).2) := by
  refine ⟨?_, ?_, ?_⟩
  · intro now s i j t2 trace hq hi hj hij hsort hfire
    refine PulseGen.fires_no_later (PulseGen.rise_mem_trigStart hq hi)
      ?_ hsort hfire
    show (now + 1000) + s.delays.getD i 0 < (now + 1000) + s.delays.getD j 0
    omega
  · intro now s
    exact List.filter_sublist _
  · intro T s hpt
    exact (PulseGen.run_dense_sorted (fun tk _ => Nat.zero_le _) hpt).1

/-- C6 witness: with delays[0] = 500 and delays[1] = 100 triggered at 0
(t0 = 1000), the channel-0 rise (deadline 1500) fires at the single tick
2000, and the channel-1 rise (deadline 1100) fires no later; the within-tick
firing order is a sublist of the slot order; dense ticking of the same
schedule for 7000 instants fires in weakly increasing deadline order. -/
theorem deadline_ordering_witness :
    (∃ t1, t1 ≤ 2000 ∧
      (t1, PulseGen.Task.mk 1100 (PulseGen.Act.ttlStart 5)) ∈
        (PulseGen.run [2000]
          (PulseGen.trigStart 0
            (PulseGen.St.mk [] 0 [500, 100, 0, 0, 0, 0, 0, 0] 3000))).2) ∧
    ((PulseGen.tick 2000
        (PulseGen.trigStart 0
          (PulseGen.St.mk [] 0 [500, 100, 0, 0, 0, 0, 0, 0] 3000))).2).Sublist
      (PulseGen.trigStart 0
        (PulseGen.St.mk [] 0 [500, 100, 0, 0, 0, 0, 0, 0] 3000)).queue ∧
    List.Pairwise (fun p q => p.2.deadline ≤ q.2.deadline)
      (PulseGen.run (PulseGen.denseFrom 0 7000)
        (PulseGen.trigStart 0
          (PulseGen.St.mk [] 0 [500, 100, 0, 0, 0, 0, 0, 0] 3000))).2 := by
  have h := deadline_ordering
  refine ⟨?_, ?_, ?_⟩
  · have := h.1 0 (PulseGen.St.mk [] 0 [500, 100, 0, 0, 0, 0, 0, 0] 3000)
      1 0 2000 [2000] rfl (by decide) (by decide) (by decide)
      (by decide) (by decide)
    simpa using this
  · exact h.2.1 2000
      (PulseGen.trigStart 0
        (PulseGen.St.mk [] 0 [500, 100, 0, 0, 0, 0, 0, 0] 3000))
  · exact h.2.2 7000
      (PulseGen.trigStart 0
        (PulseGen.St.mk [] 0 [500, 100, 0, 0, 0, 0, 0, 0] 3000)) (by decide)

end SidekickEPICS
